import Mathlib

/-
  Verification of the JanSevak frontend data-synchronization layer.

  The definitions below are a shallow embedding of the TypeScript source:
  - src/Frontend/src/services/api.ts        (ApiService: fetchWithErrorHandling,
        getReportsByLocation, checkConnection, query-string building)
  - src/Frontend/src/components/JharkhandHeatmap.tsx  (loadReportLocations,
        mount / filter-change / refresh / timer fetch triggers,
        coordinate-validity filter)
  - src/Frontend/src/hooks (useReports, useReportStats fetch steps)
  - src/Frontend/src/components/StatisticsSection.tsx (fetchStats, render branches)
  - src/Frontend/src/components/ChatbotPage.tsx (sendMessage, formatComplaintText)

  JavaScript strings are modelled as Lean String; JavaScript numbers that can
  be absent / NaN / non-numeric are modelled by the JsCoord type; promise
  results are modelled with Except (an Except.error is a rejected promise).
-/

namespace JanSevak

/-! ## JavaScript string primitives used by the source -/

/-- JS String.prototype.trim, on the Lean character model. -/
def jsTrim (s : String) : String :=
  String.mk (((s.data.dropWhile Char.isWhitespace).reverse.dropWhile
    Char.isWhitespace).reverse)

/-- If the needle is a leading segment of the haystack, return the rest. -/
def dropExact : List Char → List Char → Option (List Char)
  | [], cs => some cs
  | _ :: _, [] => none
  | n :: ns, c :: cs => if c = n then dropExact ns cs else none

/-- Substring search on character lists (JS String.prototype.includes). -/
def containsSubAux (needle : List Char) : List Char → Bool
  | [] => (dropExact needle []).isSome
  | c :: cs => (dropExact needle (c :: cs)).isSome || containsSubAux needle cs

/-- JS hay.includes(needle). -/
def containsSub (hay needle : String) : Bool :=
  containsSubAux needle.data hay.data

/-- Remove the first occurrence of the needle (JS hay.replace(needle, "")). -/
def removeFirstAux (needle : List Char) : List Char → List Char
  | [] => []
  | c :: cs =>
    match dropExact needle (c :: cs) with
    | some rest => rest
    | none => c :: removeFirstAux needle cs

/-- JS hay.replace(needle, "") for a plain-string needle. -/
def removeFirst (hay needle : String) : String :=
  String.mk (removeFirstAux needle.data hay.data)

/-! ## Filter model (api.ts getReportsByLocation and JharkhandHeatmap) -/

/-- The optional filters argument of ApiService.getReportsByLocation; a field
is `none` when the corresponding key is absent from the JS object. -/
structure Filters where
  category : Option String := none
  priority : Option String := none
  department : Option String := none
  status : Option String := none
deriving DecidableEq

/-- One `if (filters?.k) params.append(k, filters.k)` step: the key is appended
only when the value is present and truthy (a non-empty string). -/
def addParam (k : String) : Option String → List (String × String)
  | none => []
  | some s => if s = "" then [] else [(k, s)]

/-- The URLSearchParams contents built by getReportsByLocation, in append
order: category, priority, department, status. -/
def buildParams : Option Filters → List (String × String)
  | none => []
  | some f =>
    addParam "category" f.category ++ addParam "priority" f.priority ++
      addParam "department" f.department ++ addParam "status" f.status

/-- URLSearchParams.toString, without percent-encoding (filter values are
drawn from plain identifier vocabularies in this application). -/
def paramsToString (ps : List (String × String)) : String :=
  String.intercalate "&" (ps.map fun p => p.1 ++ "=" ++ p.2)

/-- The query-string suffix of the by-location request URL:
empty params give the empty string, otherwise a leading question mark. -/
def locationQueryString (f : Option Filters) : String :=
  let s := paramsToString (buildParams f)
  if s = "" then "" else "?" ++ s

/-- The four filter-selection state fields of JharkhandHeatmap
(selectedCategory etc.); the empty string is the "no constraint" value. -/
structure FilterSelections where
  selectedCategory : String
  selectedPriority : String
  selectedDepartment : String
  selectedStatus : String
deriving DecidableEq

/-- A selected value becomes a filter key exactly when it is truthy
(non-empty). -/
def optOfSelected (s : String) : Option String :=
  if s = "" then none else some s

/-- The `filters` object built inside loadReportLocations: keys are only set
when applyFilters is true and the selected value is non-empty. -/
def buildFilters (applyFilters : Bool) (st : FilterSelections) : Filters :=
  if applyFilters then
    { category := optOfSelected st.selectedCategory,
      priority := optOfSelected st.selectedPriority,
      department := optOfSelected st.selectedDepartment,
      status := optOfSelected st.selectedStatus }
  else {}

/-- Object.keys(filters).length for the filters object above. -/
def numKeys (f : Filters) : Nat :=
  (if f.category.isSome then 1 else 0) + (if f.priority.isSome then 1 else 0) +
    (if f.department.isSome then 1 else 0) + (if f.status.isSome then 1 else 0)

/-- The argument loadReportLocations passes to getReportsByLocation:
`Object.keys(filters).length > 0 ? filters : undefined`. -/
def filtersArg (applyFilters : Bool) (st : FilterSelections) : Option Filters :=
  let f := buildFilters applyFilters st
  if 0 < numKeys f then some f else none

/-- The events of JharkhandHeatmap that trigger loadReportLocations. -/
inductive HeatmapEvent where
  | mount
  | filterChange
  | manualRefresh
  | timerTick
deriving DecidableEq

/-- The applyFilters argument each call site passes: the mount effect calls
loadReportLocations() (default false); the filter-change effect, the
refresh button and the interval callback all call loadReportLocations(true). -/
def applyFiltersFlag : HeatmapEvent → Bool
  | .mount => false
  | .filterChange => true
  | .manualRefresh => true
  | .timerTick => true

/-- The filters argument carried by the fetch a given event triggers. -/
def heatmapFiltersArg (e : HeatmapEvent) (st : FilterSelections) :
    Option Filters :=
  filtersArg (applyFiltersFlag e) st

/-! ## Location records and the coordinate-validity filter -/

/-- A latitude/longitude field as it may arrive in a fetched JSON record:
absent, the NaN number, a finite number, or a non-numeric (string) value.
Finite numbers are modelled by integers; only presence, zero-ness and
NaN-ness matter to the code under verification. -/
inductive JsCoord where
  | missing
  | nan
  | num (x : Int)
  | str (s : String)
deriving DecidableEq

/-- JS truthiness of a coordinate field: undefined, NaN, the number 0 and
the empty string are falsy. -/
def truthy : JsCoord → Bool
  | .missing => false
  | .nan => false
  | .num x => x ≠ 0
  | .str s => s ≠ ""

/-- typeof value === "number": true for NaN and for finite numbers. -/
def isNumberType : JsCoord → Bool
  | .nan => true
  | .num _ => true
  | .missing => false
  | .str _ => false

/-- Global isNaN (with coercion): true for NaN and undefined, false for a
finite number. Non-numeric strings coerce to NaN; the typeof guard in the
source runs first, so string values never reach this check. -/
def jsIsNaN : JsCoord → Bool
  | .nan => true
  | .missing => true
  | .num _ => false
  | .str _ => true

/-- A fetched location record: the two coordinate fields plus an identifying
name standing in for the remaining display fields. -/
structure RawLocation where
  lat : JsCoord
  lng : JsCoord
  name : String
deriving DecidableEq

/-- The validLocations predicate of loadReportLocations, in source order:
loc.lat and loc.lng truthy, both of number type, and neither NaN. -/
def locValid (loc : RawLocation) : Bool :=
  truthy loc.lat && truthy loc.lng && isNumberType loc.lat &&
    isNumberType loc.lng && !jsIsNaN loc.lat && !jsIsNaN loc.lng

/-- The list handed to the marker layer: fetched locations that pass the
validity filter (MapboxMap renders one feature per element). -/
def validLocations (locs : List RawLocation) : List RawLocation :=
  locs.filter locValid

/-! ## Remote Data Gateway (api.ts) -/

/-- The JSON payload in the data field of the response envelope, as far as
getReportsByLocation inspects it: an array of locations or anything else. -/
inductive JsonData where
  | arr (locs : List RawLocation)
  | nonArray
deriving DecidableEq

/-- The parsed body of an /api response: success flag, optional error
message, data payload. -/
structure ApiResponseBody where
  success : Bool
  error : Option String
  data : JsonData
deriving DecidableEq

/-- The behaviour of the backend on one fetch: the promise rejects
(network error) or resolves with a status code and a parsed body. -/
inductive FetchOutcome where
  | networkError (e : String)
  | response (status : Nat) (body : ApiResponseBody)
deriving DecidableEq

/-- Response.ok: status in the 2xx range. -/
def responseOk (status : Nat) : Bool := 200 ≤ status && status < 300

/-- `data.error || "API request failed"`: the fallback is used when error is
absent or empty (falsy). -/
def envelopeError : Option String → String
  | none => "API request failed"
  | some e => if e = "" then "API request failed" else e

/-- ApiService.fetchWithErrorHandling: rethrows network errors, throws on a
non-2xx status, throws on a success:false envelope, otherwise returns the
data payload. -/
def fetchWithErrorHandling : FetchOutcome → Except String JsonData
  | .networkError e => .error e
  | .response status body =>
    if !responseOk status then
      .error ("HTTP error! status: " ++ toString status)
    else if !body.success then
      .error (envelopeError body.error)
    else
      .ok body.data

/-- ApiService.getReportsByLocation: builds the filtered URL (see
locationQueryString), fetches, returns [] when the payload is not an array,
and catches every thrown error, returning []. The result is the promise
outcome: an Except.error would be a rejection, which never occurs. The
filters argument affects only the request URL, never the result handling. -/
def getReportsByLocation (filters : Option Filters) (o : FetchOutcome) :
    Except String (List RawLocation) :=
  match fetchWithErrorHandling o with
  | .error _ => .ok []
  | .ok (.arr ls) => .ok ls
  | .ok .nonArray => .ok []

/-- The default API base URL and the by-location request URL with its
query string. -/
def locationRequestUrl (filters : Option Filters) : String :=
  "http://localhost:8000/api/reports/by-location" ++ locationQueryString filters

/-- ApiService.checkConnection: resolves with response.ok, and the catch
turns every rejection into false. An Except.error result would be a
rejected promise, which never occurs. -/
inductive HealthOutcome where
  | unreachable (e : String)
  | response (status : Nat)
deriving DecidableEq

/-- The health probe itself. -/
def checkConnection : HealthOutcome → Except String Bool
  | .unreachable _ => .ok false
  | .response s => .ok (responseOk s)

/-! ## Heatmap location loading (JharkhandHeatmap.loadReportLocations) -/

/-- The new value of the locations state after one completed
loadReportLocations run: untouched when the backend is not connected;
otherwise the filtered fetch result when non-empty, and [] when the fetch
result is empty (which is also what every gateway failure produces).
The error branch mirrors the outer catch, which also clears the list. -/
def heatmapLoadStep (prev : List RawLocation) (connected : Bool)
    (filters : Option Filters) (o : FetchOutcome) : List RawLocation :=
  if connected then
    match getReportsByLocation filters o with
    | .ok reportLocations =>
      if 0 < reportLocations.length then validLocations reportLocations else []
    | .error _ => []
  else prev

/-! ## Fetch-state hooks (useReports, useReportStats) -/

/-- A thrown JS value: an Error instance carrying a message, or any other
value. -/
inductive JsThrown where
  | errObj (msg : String)
  | otherVal
deriving DecidableEq

/-- `err instanceof Error ? err.message : fallback`. -/
def thrownMessage (fallback : String) : JsThrown → String
  | .errObj m => m
  | .otherVal => fallback

/-- A report record as typed in api.ts; the hooks carry it opaquely.
Numeric JSON fields are modelled by integers. -/
structure ReportRec where
  report_id : String
  session_id : String
  citizen_phone : String
  description : String
  coordinates : Option (Int × Int)
  image_path : Option String
  category : String
  priority : String
  department : String
  resolution_days : Option Int
  status : String
  location_lat : Int
  location_lon : Int
  address_extracted : Option String
  created_at : String
  updated_at : String
deriving DecidableEq

/-- The state held by useReports. -/
structure UseReportsState where
  reports : List ReportRec
  loading : Bool
  error : Option String
deriving DecidableEq

/-- useReports.fetchReports, as a function from the previous state and the
gateway result to the state after the run completes: success stores the
payload and clears the error; failure stores a message (the thrown message,
else a fallback) and leaves reports untouched. -/
def fetchReportsStep (st : UseReportsState)
    (result : Except JsThrown (List ReportRec)) : UseReportsState :=
  match result with
  | .ok data => { reports := data, loading := false, error := none }
  | .error e =>
    { reports := st.reports, loading := false,
      error := some (thrownMessage "Failed to fetch reports" e) }

/-- The ReportStats payload of api.ts. -/
structure ReportStats where
  total_reports : Int
  by_status : List (String × Int)
  by_category : List (String × Int)
  by_priority : List (String × Int)
deriving DecidableEq

/-- The state held by useReportStats. -/
structure UseReportStatsState where
  stats : Option ReportStats
  loading : Bool
  error : Option String
deriving DecidableEq

/-- useReportStats.fetchStats, same shape as fetchReportsStep with its own
fallback message and an optional payload. -/
def fetchReportStatsStep (st : UseReportStatsState)
    (result : Except JsThrown ReportStats) : UseReportStatsState :=
  match result with
  | .ok data => { stats := some data, loading := false, error := none }
  | .error e =>
    { stats := st.stats, loading := false,
      error := some (thrownMessage "Failed to fetch statistics" e) }

/-! ## Statistics section (StatisticsSection.tsx) -/

/-- A card value: a number or a display string such as "0.0 days". -/
inductive StatValue where
  | num (n : Int)
  | str (s : String)
deriving DecidableEq

/-- The change_type field of a card. -/
inductive ChangeType where
  | increase
  | decrease
deriving DecidableEq

/-- One summary card. -/
structure StatCard where
  value : StatValue
  change : String
  change_type : ChangeType
deriving DecidableEq

/-- The four cards of ComprehensiveStats. -/
structure StatsCards where
  total_complaints : StatCard
  resolved_this_month : StatCard
  pending_review : StatCard
  avg_resolution_time : StatCard
deriving DecidableEq

/-- One month of the bar series. -/
structure MonthlyDatum where
  month : String
  complaints : Int
deriving DecidableEq

/-- One slice of the category donut. -/
structure CategoryDatum where
  name : String
  value : Int
  color : String
deriving DecidableEq

/-- The ComprehensiveStats payload of api.ts. -/
structure ComprehensiveStats where
  cards : StatsCards
  monthly_data : List MonthlyDatum
  category_data : List CategoryDatum
  by_status : List (String × Int)
  by_priority : List (String × Int)
  by_department : List (String × Int)
  total_reports : Int
deriving DecidableEq

/-- The mock dataset the catch block of StatisticsSection.fetchStats
stores: four zero-valued cards, six zero months, and a single No Data
category with a 100 share. -/
def fallbackStats : ComprehensiveStats where
  cards :=
    { total_complaints := ⟨.num 0, "+0%", .increase⟩,
      resolved_this_month := ⟨.num 0, "+0%", .increase⟩,
      pending_review := ⟨.num 0, "-0%", .decrease⟩,
      avg_resolution_time := ⟨.str "0.0 days", "-0%", .decrease⟩ }
  monthly_data :=
    [⟨"Jan", 0⟩, ⟨"Feb", 0⟩, ⟨"Mar", 0⟩, ⟨"Apr", 0⟩, ⟨"May", 0⟩, ⟨"Jun", 0⟩]
  category_data := [⟨"No Data", 100, "#3B82F6"⟩]
  by_status := []
  by_priority := []
  by_department := []
  total_reports := 0

/-- The state held by StatisticsSection. -/
structure StatsState where
  stats : Option ComprehensiveStats
  loading : Bool
  error : Option String
deriving DecidableEq

/-- StatisticsSection.fetchStats after the run completes: success stores the
payload and clears the error; failure stores the message
"Failed to load statistics" and the fallback dataset. -/
def fetchComprehensiveStatsStep
    (result : Except JsThrown ComprehensiveStats) : StatsState :=
  match result with
  | .ok data => { stats := some data, loading := false, error := none }
  | .error _ =>
    { stats := some fallbackStats, loading := false,
      error := some "Failed to load statistics" }

/-- What the StatisticsSection render returns, abstracted to the branch
taken: the loading skeleton, the error/retry block, or the cards and
charts built from the stats in state. -/
inductive StatsView where
  | loadingView
  | errorView (error : Option String)
  | statsView (cards : StatsCards) (monthly : List MonthlyDatum)
      (categories : List CategoryDatum)
deriving DecidableEq

/-- The render branch structure of StatisticsSection:
`if (loading) ...; if (error || !stats) ...;` then the cards and charts. -/
def renderStatistics (st : StatsState) : StatsView :=
  if st.loading then .loadingView
  else
    match st.error, st.stats with
    | some e, _ => .errorView (some e)
    | none, none => .errorView none
    | none, some s => .statsView s.cards s.monthly_data s.category_data

/-! ## Chat view (ChatbotPage.tsx sendMessage) -/

/-- A chat participant. -/
inductive Sender where
  | user
  | bot
deriving DecidableEq

/-- A transcript entry (the Date timestamp is not modelled; the id field
holds the Date.now()-derived identifier). -/
structure ChatMessage where
  id : String
  text : String
  sender : Sender
deriving DecidableEq

/-- The ChatbotPage state that sendMessage reads and writes. -/
structure ChatState where
  messages : List ChatMessage
  inputMessage : String
  isLoading : Bool
deriving DecidableEq

/-- The POST body sent to the chatbot endpoint. -/
structure ChatRequest where
  message : String
  chat_history : List (String × Sender)
deriving DecidableEq

/-- ChatbotPage.sendMessage up to the point the request is issued: the
guard returns immediately when the trimmed input is empty or a request is
outstanding; otherwise the user message is appended, the input cleared,
the loading flag set, and one request is sent carrying the input text and
the prior transcript. The now argument stands for Date.now().toString().
The returned option is the network request issued (none = no request). -/
def sendMessage (now : String) (st : ChatState) :
    ChatState × Option ChatRequest :=
  if jsTrim st.inputMessage = "" ∨ st.isLoading = true then (st, none)
  else
    ({ messages := st.messages ++ [⟨now, st.inputMessage, .user⟩],
       inputMessage := "", isLoading := true },
     some ⟨st.inputMessage, st.messages.map fun m => (m.text, m.sender)⟩)

/-! ## Chat reply formatter (ChatbotPage.formatComplaintText) -/

/-- The labelled fields recognised inside one complaint section. -/
structure ComplaintData where
  reportId : Option String := none
  category : Option String := none
  priority : Option String := none
  description : Option String := none
  status : Option String := none
  createdAt : Option String := none
deriving DecidableEq

/-- The formatter output: the reply verbatim, or an intro plus structured
entries plus whether the for-more-details tip box is shown. -/
inductive FormattedChat where
  | verbatim (s : String)
  | structured (intro : String) (entries : List ComplaintData) (showTip : Bool)
deriving DecidableEq

/-- Consume one or more digits. -/
def dropDigits1 : List Char → Option (List Char)
  | [] => none
  | c :: cs => if c.isDigit then some (cs.dropWhile Char.isDigit) else none

/-- Match the section-heading pattern of the split regex at the current
position and return the remainder. -/
def dropComplaintHeading (cs : List Char) : Option (List Char) :=
  match dropExact "**Complaint ".data cs with
  | none => none
  | some r1 =>
    match dropDigits1 r1 with
    | none => none
    | some r2 => dropExact ":**".data r2

/-- Fueled scanner splitting the text on every heading occurrence; the fuel
is the input length, and every step consumes at least one character. -/
def splitHeadingAux : Nat → List Char → List Char → List String
  | 0, cur, rest => [String.mk (cur.reverse ++ rest)]
  | _ + 1, cur, [] => [String.mk cur.reverse]
  | fuel + 1, cur, c :: cs =>
    match dropComplaintHeading (c :: cs) with
    | some rest => String.mk cur.reverse :: splitHeadingAux fuel [] rest
    | none => splitHeadingAux fuel (c :: cur) cs

/-- JS text.split on the complaint-heading regex. -/
def splitHeading (s : String) : List String :=
  splitHeadingAux (s.data.length + 1) [] s.data

/-- Split a section into lines (JS split on a newline). -/
def splitLinesAux : List Char → List Char → List String
  | cur, [] => [String.mk cur.reverse]
  | cur, '\n' :: cs => String.mk cur.reverse :: splitLinesAux [] cs
  | cur, c :: cs => splitLinesAux (c :: cur) cs

/-- All lines of a string. -/
def splitLines (s : String) : List String :=
  splitLinesAux [] s.data

/-- line.replace of the leading-bullet regex: strip one leading asterisk
and the whitespace after it, when present. -/
def stripBullet (s : String) : String :=
  match s.data with
  | '*' :: rest => String.mk (rest.dropWhile Char.isWhitespace)
  | _ => s

/-- The per-line field extraction of formatComplaintText, in the order of
the else-if chain of the source; an unrecognised line leaves the record
unchanged. -/
def parseComplaintLine (d : ComplaintData) (line : String) : ComplaintData :=
  let cleanLine := jsTrim (stripBullet line)
  if containsSub cleanLine "**Report ID:**" then
    { d with reportId := some (jsTrim (removeFirst cleanLine "**Report ID:**")) }
  else if containsSub cleanLine "**Category:**" then
    { d with category := some (jsTrim (removeFirst cleanLine "**Category:**")) }
  else if containsSub cleanLine "**Priority:**" then
    { d with priority := some (jsTrim (removeFirst cleanLine "**Priority:**")) }
  else if containsSub cleanLine "**Description:**" then
    { d with description := some (jsTrim (removeFirst cleanLine "**Description:**")) }
  else if containsSub cleanLine "**Status:**" then
    { d with status := some (jsTrim (removeFirst cleanLine "**Status:**")) }
  else if containsSub cleanLine "**Created At:**" then
    { d with createdAt := some (jsTrim (removeFirst cleanLine "**Created At:**")) }
  else d

/-- Parse one complaint section: trim it, split into lines, keep lines with
non-empty trim, and fold the field extraction over them. -/
def parseComplaint (section' : String) : ComplaintData :=
  let lines := (splitLines (jsTrim section')).filter fun l => jsTrim l ≠ ""
  lines.foldl parseComplaintLine {}

/-- ChatbotPage.formatComplaintText: replies containing both markers are
split into an intro and complaint sections, each parsed into labelled
fields; every other reply is returned unchanged. -/
def formatComplaintText (text : String) : FormattedChat :=
  if containsSub text "**Complaint" && containsSub text "Report ID:" then
    let parts := splitHeading text
    let intro := jsTrim (parts.headD "")
    let complaints := parts.drop 1
    .structured intro (complaints.map parseComplaint)
      (containsSub text "For more details")
  else .verbatim text

/-! ## Statement vocabulary and concrete inputs used by the theorems -/

/-- A coordinate field holding a finite number: present, of number type,
and not NaN. This is the ordinary reading of a valid coordinate. -/
def finiteNum : JsCoord → Bool
  | .num _ => true
  | _ => false

/-- A representative assistant reply with two complaint sections, each
carrying the five labelled fields, plus an intro line and the
for-more-details footer. -/
def exampleTwoComplaints : String :=
  "Here are the latest complaints:\n**Complaint 1:**\n* **Report ID:** RPT001\n* **Category:** water_sanitation\n* **Priority:** high\n* **Status:** submitted\n* **Description:** Pipe burst near the school\n**Complaint 2:**\n* **Report ID:** RPT002\n* **Category:** road_infrastructure\n* **Priority:** low\n* **Status:** resolved\n* **Description:** Pothole repaired\nFor more details, please specify the Report ID."

/-- A reply whose single complaint section omits the category, description,
status and created-at fields. -/
def exampleMissingFields : String :=
  "**Complaint 1:**\n* **Report ID:** RPT003\n* **Priority:** medium"

/-! ## Helper lemmas -/

/-- Membership in one append step of the query parameters. -/
theorem mem_addParam_optOfSelected (k0 s k v : String) :
    ((k, v) ∈ addParam k0 (optOfSelected s)) ↔ (k = k0 ∧ s ≠ "" ∧ v = s) := by
  by_cases h : s = "" <;> simp [addParam, optOfSelected, h]

/-- The filters object built with applyFilters has a key exactly when some
selection is non-empty. -/
theorem numKeys_buildFilters_true (st : FilterSelections) :
    (0 < numKeys (buildFilters true st)) ↔
      (st.selectedCategory ≠ "" ∨ st.selectedPriority ≠ "" ∨
       st.selectedDepartment ≠ "" ∨ st.selectedStatus ≠ "") := by
  by_cases h1 : st.selectedCategory = "" <;>
  by_cases h2 : st.selectedPriority = "" <;>
  by_cases h3 : st.selectedDepartment = "" <;>
  by_cases h4 : st.selectedStatus = "" <;>
    simp [numKeys, buildFilters, optOfSelected, h1, h2, h3, h4]

/-! ## Claim theorems -/

/-- C1: a filtered location fetch carries exactly the query parameters of
the dimensions whose selected value is non-empty, each with its selected
value, all in the one request (conjunctive combination); a dimension with
no active value contributes no parameter, and no parameter ever carries an
empty (wildcard) value. -/
theorem location_fetch_query_exact (st : FilterSelections) :
    (∀ k v, ((k, v) ∈ buildParams (filtersArg true st)) ↔
      ((k = "category" ∧ st.selectedCategory ≠ "" ∧ v = st.selectedCategory) ∨
       (k = "priority" ∧ st.selectedPriority ≠ "" ∧ v = st.selectedPriority) ∨
       (k = "department" ∧ st.selectedDepartment ≠ "" ∧ v = st.selectedDepartment) ∨
       (k = "status" ∧ st.selectedStatus ≠ "" ∧ v = st.selectedStatus))) ∧
    (∀ k v, ((k, v) ∈ buildParams (filtersArg true st)) → v ≠ "") := by
  have hmem : ∀ k v, ((k, v) ∈ buildParams (filtersArg true st)) ↔
      ((k = "category" ∧ st.selectedCategory ≠ "" ∧ v = st.selectedCategory) ∨
       (k = "priority" ∧ st.selectedPriority ≠ "" ∧ v = st.selectedPriority) ∨
       (k = "department" ∧ st.selectedDepartment ≠ "" ∧ v = st.selectedDepartment) ∨
       (k = "status" ∧ st.selectedStatus ≠ "" ∧ v = st.selectedStatus)) := by
    intro k v
    by_cases hpos : 0 < numKeys (buildFilters true st)
    · simp only [filtersArg, if_pos hpos]
      simp [buildParams, buildFilters, mem_addParam_optOfSelected]
    · simp only [filtersArg, if_neg hpos]
      rw [numKeys_buildFilters_true] at hpos
      push_neg at hpos
      obtain ⟨h1, h2, h3, h4⟩ := hpos
      simp [buildParams, h1, h2, h3, h4]
  refine ⟨hmem, ?_⟩
  intro k v hv
  rcases (hmem k v).mp hv with ⟨_, hne, hveq⟩ | ⟨_, hne, hveq⟩ | ⟨_, hne, hveq⟩ | ⟨_, hne, hveq⟩ <;>
    (subst hveq; exact hne)

/-- C1 witness: with only the category selected, the query parameters hold
exactly that category, with a non-empty value. -/
theorem location_fetch_query_exact_witness :
    (("category", "roads") ∈ buildParams (filtersArg true ⟨"roads", "", "", ""⟩)) ∧
    "roads" ≠ "" :=
  ⟨by decide,
   (location_fetch_query_exact ⟨"roads", "", "", ""⟩).2 "category" "roads" (by decide)⟩

/-- C2: whatever the four selection fields hold, the mount-triggered fetch
passes no filters (an empty query string); every post-mount trigger
(filter change, manual refresh, timer tick) passes the currently active
filter set. The filter-change effect also runs once at mount, but its
isConnected guard is false then, so the mount fetch is the only initial
one. -/
theorem initial_mount_fetch_unfiltered (st : FilterSelections) :
    heatmapFiltersArg .mount st = none ∧
    locationQueryString (heatmapFiltersArg .mount st) = "" ∧
    (∀ e : HeatmapEvent, e ≠ .mount → heatmapFiltersArg e st = filtersArg true st) := by
  have h1 : heatmapFiltersArg .mount st = none := by
    simp [heatmapFiltersArg, applyFiltersFlag, filtersArg, buildFilters, numKeys]
  refine ⟨h1, ?_, ?_⟩
  · rw [h1]; rfl
  · intro e he
    cases e with
    | mount => exact absurd rfl he
    | filterChange => rfl
    | manualRefresh => rfl
    | timerTick => rfl

/-- C2 witness: with every filter selected at mount time, the mount fetch
still passes none of them, while a manual refresh passes the active set. -/
theorem initial_mount_fetch_unfiltered_witness :
    heatmapFiltersArg .mount ⟨"roads", "high", "PWD", "resolved"⟩ = none ∧
    heatmapFiltersArg .manualRefresh ⟨"roads", "high", "PWD", "resolved"⟩ =
      filtersArg true ⟨"roads", "high", "PWD", "resolved"⟩ := by
  have h := initial_mount_fetch_unfiltered ⟨"roads", "high", "PWD", "resolved"⟩
  exact ⟨h.1, h.2.2 .manualRefresh (by decide)⟩

/-- C3 (amended): on a gateway failure the report hooks keep their
previously stored data and store an error message, but the heatmap's
location list is reset to the empty list, because the gateway surfaces the
failure as an empty array which the heatmap stores over the previous
list. -/
theorem hooks_keep_data_heatmap_wipes :
    (∀ (st : UseReportsState) (e : JsThrown),
        (fetchReportsStep st (.error e)).reports = st.reports ∧
        (fetchReportsStep st (.error e)).error.isSome = true) ∧
    (∀ (st : UseReportStatsState) (e : JsThrown),
        (fetchReportStatsStep st (.error e)).stats = st.stats ∧
        (fetchReportStatsStep st (.error e)).error.isSome = true) ∧
    (∀ (prev : List RawLocation) (f : Option Filters) (e : String),
        heatmapLoadStep prev true f (.networkError e) = []) :=
  ⟨fun _ _ => ⟨rfl, rfl⟩, fun _ _ => ⟨rfl, rfl⟩, fun _ _ _ => rfl⟩

/-- C3 counterexample: a heatmap holding one previously loaded location
loses it when the next location fetch fails with a network error — the
stored list becomes empty rather than staying unchanged. -/
theorem heatmap_wipe_counterexample :
    heatmapLoadStep [⟨.num 23, .num 85, "r1"⟩] true none (.networkError "ECONNREFUSED") = [] ∧
    ([(⟨.num 23, .num 85, "r1"⟩ : RawLocation)] ≠ ([] : List RawLocation)) :=
  ⟨rfl, by decide⟩

/-- C4: when the statistics fetch fails, the catch does store the
placeholder dataset in state, but the component then renders the
error/retry branch, not the cards and charts — the placeholder is never
displayed because the error-first render guard takes precedence. -/
theorem stats_failure_renders_error_view :
    (fetchComprehensiveStatsStep (Except.error (.errObj "Network Error"))).stats =
      some fallbackStats ∧
    renderStatistics (fetchComprehensiveStatsStep (Except.error (.errObj "Network Error"))) =
      .errorView (some "Failed to load statistics") :=
  ⟨rfl, rfl⟩

/-- C5 (amended): every location with a missing, non-numeric or NaN
coordinate is excluded, and a list of locations with finite non-zero
coordinates plus one NaN-latitude location renders exactly as many markers
as there are such locations; the non-zero proviso is forced by the
truthiness check, which also drops zero coordinates. -/
theorem coordinate_filter_amended :
    (∀ loc : RawLocation,
        finiteNum loc.lat = false ∨ finiteNum loc.lng = false → locValid loc = false) ∧
    (∀ (locs : List RawLocation) (bad : RawLocation),
        (∀ l ∈ locs, (∃ x, l.lat = .num x ∧ x ≠ 0) ∧ (∃ y, l.lng = .num y ∧ y ≠ 0)) →
        bad.lat = .nan →
        (validLocations (locs ++ [bad])).length = locs.length) := by
  constructor
  · rintro ⟨lat, lng, name⟩ h
    cases lat <;> cases lng <;>
      simp_all [locValid, finiteNum, truthy, isNumberType, jsIsNaN]
  · intro locs bad hvalid hbad
    have hbadv : locValid bad = false := by
      simp [locValid, hbad, truthy]
    have hall : ∀ l ∈ locs, locValid l = true := by
      intro l hl
      obtain ⟨⟨x, hx, hx0⟩, ⟨y, hy, hy0⟩⟩ := hvalid l hl
      simp [locValid, hx, hy, truthy, isNumberType, jsIsNaN, hx0, hy0]
    simp [validLocations, List.filter_append, List.filter_cons, List.filter_nil,
      hbadv, List.filter_eq_self.mpr hall]

/-- C5 counterexample: one location with present, numeric, non-NaN
coordinates (latitude 0) plus one NaN-latitude location yields zero
rendered markers, not the one marker the claim promises for N = 1. -/
theorem nan_exclusion_counterexample :
    (finiteNum (JsCoord.num 0) = true ∧ jsIsNaN (JsCoord.num 0) = false ∧
     finiteNum (JsCoord.num 85) = true ∧ jsIsNaN (JsCoord.num 85) = false) ∧
    (validLocations [⟨.num 0, .num 85, "zero-lat"⟩, ⟨.nan, .num 85, "nan-lat"⟩]).length ≠ 1 := by
  decide

/-- C5 witness: one non-zero-coordinate location plus one NaN-latitude
location renders exactly one marker. -/
theorem coordinate_filter_amended_witness :
    (validLocations ([⟨.num 23, .num 85, "a"⟩] ++ [⟨.nan, .num 85, "b"⟩])).length = 1 := by
  have h := coordinate_filter_amended.2 [⟨.num 23, .num 85, "a"⟩] ⟨.nan, .num 85, "b"⟩
    (by
      intro l hl
      simp at hl
      subst hl
      exact ⟨⟨23, rfl, by decide⟩, ⟨85, rfl, by decide⟩⟩)
    rfl
  simpa using h

set_option maxRecDepth 100000 in
/-- C6: a reply without the complaint-listing markers is returned verbatim;
the representative two-section reply produces two structured entries
carrying each section's Report ID, Category, Priority, Status and
Description; a section with absent fields yields an entry that simply
omits them. -/
theorem chat_formatter_behaviour :
    (∀ text : String,
        (containsSub text "**Complaint" && containsSub text "Report ID:") = false →
        formatComplaintText text = .verbatim text) ∧
    formatComplaintText exampleTwoComplaints =
      .structured "Here are the latest complaints:"
        [⟨some "RPT001", some "water_sanitation", some "high",
            some "Pipe burst near the school", some "submitted", none⟩,
         ⟨some "RPT002", some "road_infrastructure", some "low",
            some "Pothole repaired", some "resolved", none⟩] true ∧
    formatComplaintText exampleMissingFields =
      .structured "" [⟨some "RPT003", none, some "medium", none, none, none⟩] false := by
  refine ⟨?_, by decide, by decide⟩
  intro text h
  simp [formatComplaintText, h]

/-- C6 witness: an ordinary reply without the pattern is rendered
verbatim. -/
theorem chat_formatter_behaviour_witness :
    formatComplaintText "What is the status distribution?" =
      .verbatim "What is the status distribution?" :=
  chat_formatter_behaviour.1 "What is the status distribution?" (by decide)

/-- C7: submitting while the trimmed input is empty or while a request is
outstanding changes no state and sends no request. -/
theorem chat_send_noop (now : String) (st : ChatState)
    (h : jsTrim st.inputMessage = "" ∨ st.isLoading = true) :
    sendMessage now st = (st, none) := by
  simp [sendMessage, h]

/-- C7 witness: a whitespace-only submission and a submission during an
outstanding request are both no-ops. -/
theorem chat_send_noop_witness :
    sendMessage "1" ⟨[], "  \n ", false⟩ = (⟨[], "  \n ", false⟩, none) ∧
    sendMessage "2" ⟨[], "hello", true⟩ = (⟨[], "hello", true⟩, none) :=
  ⟨chat_send_noop "1" _ (Or.inl (by decide)), chat_send_noop "2" _ (Or.inr rfl)⟩

/-- C8: the health probe always resolves (never an Except.error), and it
resolves to true exactly when the health endpoint answered with a 2xx
status; every other behaviour — rejection or a non-2xx status — resolves
to false. -/
theorem health_probe_never_rejects (o : HealthOutcome) :
    ∃ b : Bool, checkConnection o = .ok b ∧
      (b = true ↔ ∃ s, o = .response s ∧ 200 ≤ s ∧ s < 300) := by
  cases o with
  | unreachable e => exact ⟨false, rfl, by simp⟩
  | response s =>
    refine ⟨responseOk s, rfl, ?_⟩
    simp [responseOk]

/-- C9: getReportsByLocation always resolves; it resolves to the empty list
on a network rejection, a non-2xx status, a success:false envelope, or a
non-array payload, to the payload on an array success, and a network
failure is indistinguishable from a successful empty result. -/
theorem get_reports_never_rejects :
    (∀ (f : Option Filters) (o : FetchOutcome), ∃ r, getReportsByLocation f o = .ok r) ∧
    (∀ (f : Option Filters) (e : String), getReportsByLocation f (.networkError e) = .ok []) ∧
    (∀ (f : Option Filters) (s : Nat) (b : ApiResponseBody), responseOk s = false →
        getReportsByLocation f (.response s b) = .ok []) ∧
    (∀ (f : Option Filters) (s : Nat) (b : ApiResponseBody), b.success = false →
        getReportsByLocation f (.response s b) = .ok []) ∧
    (∀ (f : Option Filters) (s : Nat) (b : ApiResponseBody), b.data = .nonArray →
        getReportsByLocation f (.response s b) = .ok []) ∧
    (∀ (f : Option Filters) (s : Nat) (b : ApiResponseBody) (ls : List RawLocation),
        responseOk s = true → b.success = true → b.data = .arr ls →
        getReportsByLocation f (.response s b) = .ok ls) ∧
    (∀ (f : Option Filters) (e : String),
        getReportsByLocation f (.networkError e) =
          getReportsByLocation f (.response 200 ⟨true, none, .arr []⟩)) := by
  refine ⟨?_, ?_, ?_, ?_, ?_, ?_, ?_⟩
  · intro f o
    cases hfe : fetchWithErrorHandling o with
    | error e => exact ⟨[], by simp [getReportsByLocation, hfe]⟩
    | ok d =>
      cases d with
      | arr ls => exact ⟨ls, by simp [getReportsByLocation, hfe]⟩
      | nonArray => exact ⟨[], by simp [getReportsByLocation, hfe]⟩
  · intro f e; rfl
  · intro f s b h
    simp [getReportsByLocation, fetchWithErrorHandling, h]
  · intro f s b h
    by_cases hok : responseOk s = true <;>
      simp [getReportsByLocation, fetchWithErrorHandling, hok, h]
  · intro f s b h
    by_cases hok : responseOk s = true <;>
    by_cases hsucc : b.success = true <;>
      simp [getReportsByLocation, fetchWithErrorHandling, hok, hsucc, h]
  · intro f s b ls hok hsucc hdata
    simp [getReportsByLocation, fetchWithErrorHandling, hok, hsucc, hdata]
  · intro f e; rfl

/-- C9 witness: a 404 status, a success:false envelope and a non-array
payload all resolve to the empty list, and an array success resolves to
its payload. -/
theorem get_reports_never_rejects_witness :
    getReportsByLocation none (.response 404 ⟨true, none, .arr []⟩) = .ok [] ∧
    getReportsByLocation none
      (.response 200 ⟨false, some "boom", .arr [⟨.num 1, .num 2, "x"⟩]⟩) = .ok [] ∧
    getReportsByLocation none (.response 200 ⟨true, none, .nonArray⟩) = .ok [] ∧
    getReportsByLocation none
      (.response 200 ⟨true, none, .arr [⟨.num 1, .num 2, "x"⟩]⟩) = .ok [⟨.num 1, .num 2, "x"⟩] :=
  ⟨get_reports_never_rejects.2.2.1 none 404 _ (by decide),
   get_reports_never_rejects.2.2.2.1 none 200 _ rfl,
   get_reports_never_rejects.2.2.2.2.1 none 200 _ rfl,
   get_reports_never_rejects.2.2.2.2.2.1 none 200 _ _ (by decide) rfl rfl⟩

/-- C10: a fetched location whose latitude or longitude is the number 0
never appears in the rendered marker set, because the truthiness check
runs before the numeric and NaN checks and 0 is falsy. -/
theorem zero_coordinate_excluded (locs : List RawLocation) (loc : RawLocation)
    (h : loc.lat = .num 0 ∨ loc.lng = .num 0) :
    loc ∉ validLocations locs := by
  intro hmem
  have hv : locValid loc = true := List.of_mem_filter hmem
  rcases h with h | h <;> simp [locValid, h, truthy] at hv

/-- C10 witness: a zero-latitude location is dropped even from a fetched
list containing only it. -/
theorem zero_coordinate_excluded_witness :
    (⟨.num 0, .num 85, "z"⟩ : RawLocation) ∉ validLocations [⟨.num 0, .num 85, "z"⟩] :=
  zero_coordinate_excluded _ _ (Or.inl rfl)

end JanSevak
